import Mathlib

/-!
# Verification of the body-retry HTTP actor

A shallow embedding of `packages/actor-http-retry-body/lib/ActorHttpRetryBody.ts`:
the pre-flight policy gate (`test`, `getRequestMethod`, `isIdempotentMethod`,
`isReplayableRequestBody`, `isReplayableBody`) and the per-attempt retry state
machine built by `createRetryingBody` (`pipeBody` with its `onData`, `onEnd`,
`onError`, `onClose` listeners, and `handleStreamError`).

JavaScript values thrown or emitted as stream errors are modelled by `JSVal`:
either a structured `Error` (carrying its message) or a non-Error value carrying
its `String(v)` rendering.  The single `PassThrough` output stream is modelled by
its status (open, cleanly ended, or destroyed) together with the ordered list of
chunks written to it.  The asynchronous body of `handleStreamError` suspends at
the inter-attempt sleep and at the transport (`mediatorHttp.mediate`) call; the
outcomes of those suspension points (consumer cancellation during the wait,
transport resolution or rejection, cancellation while the transport call is in
flight) are supplied by a `RetryEnv` oracle attached to each failure event.
-/

namespace RetryBody

/-- A JavaScript value surfaced as a failure: a structured `Error` with its
message, or an arbitrary non-Error value carrying its `String(v)` rendering. -/
inductive JSVal where
  | jsError (message : String)
  | nonError (stringRepr : String)
deriving DecidableEq, Repr

/-- A structured JavaScript `Error` (only its message is observable here). -/
structure JSError where
  message : String
deriving DecidableEq, Repr

/-- `error instanceof Error ? error : new Error(String(error))` — the
normalization applied at every `output.destroy` site. -/
def toJSError : JSVal → JSError
  | .jsError m => ⟨m⟩
  | .nonError s => ⟨s⟩

/-! ## The policy gate (`test` and its helpers) -/

/-- The possible shapes of a declared request payload (`init.body` or a
`Request` body), as distinguished by `isReplayableBody`. -/
inductive BodyValue where
  | nullBody
  | stringBody (s : String)
  | urlSearchParams
  | formData
  | arrayBuffer
  | bufferView
  | blob
  | readableStream
  | otherBody
deriving DecidableEq, Repr

/-- `isReplayableBody`: null, undefined (handled at the `Option` level by the
caller), strings, `URLSearchParams`, `FormData`, `ArrayBuffer`s and views,
and `Blob`s are replayable; anything else (in particular a stream) is not. -/
def isReplayableBody : BodyValue → Bool
  | .nullBody => true
  | .stringBody _ => true
  | .urlSearchParams => true
  | .formData => true
  | .arrayBuffer => true
  | .bufferView => true
  | .blob => true
  | .readableStream => false
  | .otherBody => false

/-- The `input` of an HTTP action: a plain URL string, or a `Request` object
with a method and a possibly present (always stream-typed) body. -/
inductive ActionInput where
  | url (href : String)
  | request (method : String) (hasBody : Bool)
deriving DecidableEq, Repr

/-- The parts of an `IActionHttp` read by the policy gate: the
`httpRetryBodyCount` and `httpRetryBodyAllowUnsafe` context entries,
`init.method`, `init.body`, and the `input`. -/
structure HttpAction where
  retryCount : Option Int
  allowUnsafe : Option Bool
  initMethod : Option String
  initBody : Option BodyValue
  input : ActionInput
deriving DecidableEq, Repr

/-- `getRequestMethod`: `init.method` if defined, else the `Request` method if
the input is a `Request`, else `GET`. -/
def getRequestMethod (action : HttpAction) : String :=
  match action.initMethod with
  | some m => m
  | none =>
    match action.input with
    | .request m _ => m
    | .url _ => "GET"

/-- ASCII uppercasing of one character, as JavaScript's `toUpperCase` acts on
the ASCII strings compared by the method check. -/
def upperChar (c : Char) : Char :=
  if 'a' ≤ c ∧ c ≤ 'z' then Char.ofNat (c.toNat - 32) else c

/-- ASCII uppercasing of a string (`method.toUpperCase()`). -/
def upperAscii (s : String) : String :=
  ⟨s.data.map upperChar⟩

/-- `isIdempotentMethod`: uppercase the method, then test membership in
{GET, HEAD, PUT, DELETE, OPTIONS, TRACE}. -/
def isIdempotentMethod (method : String) : Bool :=
  let m := upperAscii method
  m == "GET" || m == "HEAD" || m == "PUT" || m == "DELETE" ||
    m == "OPTIONS" || m == "TRACE"

/-- `isReplayableRequestBody`: check `init.body` when defined; otherwise, when
the input is a `Request` with a (stream-typed, non-null) body, check that body;
otherwise there is no payload and the action is replayable. -/
def isReplayableRequestBody (action : HttpAction) : Bool :=
  match action.initBody with
  | some b => isReplayableBody b
  | none =>
    match action.input with
    | .request _ true => isReplayableBody .readableStream
    | _ => true

/-- The three rejection reasons issued by `test`, in check order. -/
inductive FailReason where
  | nonPositiveRetryCount
  | unsafeMethod
  | nonReplayableBody
deriving DecidableEq, Repr

/-- The exact message `failTest` receives for each reason (`name` is the
actor instance name interpolated into the template). -/
def renderReason (name : String) : FailReason → String
  | .nonPositiveRetryCount => name ++ " requires a retry count greater than zero to function"
  | .unsafeMethod => name ++ " can only retry idempotent request methods by default"
  | .nonReplayableBody => name ++ " can only retry replayable request bodies by default"

/-- Outcome of the `test` gate: `failTest` with a reason, or `passTest`. -/
inductive TestOutcome where
  | failed (reason : FailReason)
  | passed
deriving DecidableEq, Repr

/-- The `test` method: reject when the retry count is absent or falsy or
below one; then reject non-idempotent methods unless unsafe retries are
allowed; then reject non-replayable payloads unless unsafe retries are
allowed; otherwise pass. -/
def testGate (action : HttpAction) : TestOutcome :=
  match action.retryCount with
  | none => .failed .nonPositiveRetryCount
  | some n =>
    if n < 1 then .failed .nonPositiveRetryCount
    else
      let allowUnsafe := action.allowUnsafe.getD false
      if !isIdempotentMethod (getRequestMethod action) && !allowUnsafe then
        .failed .unsafeMethod
      else if !isReplayableRequestBody action && !allowUnsafe then
        .failed .nonReplayableBody
      else
        .passed

/-! ## The retry state machine (`createRetryingBody`) -/

/-- Status of the `PassThrough` output stream. -/
inductive OutputStatus where
  | opened
  | ended
  | destroyed (error : Option JSError)
deriving DecidableEq, Repr

/-- Which listeners are attached to the current source body: the four
buffering listeners installed by `pipeBody`, the overflow pass-through
handlers, or none at all (after `cleanup` with nothing re-installed). -/
inductive Mode where
  | buffering
  | passthrough
  | idle
deriving DecidableEq, Repr

/-- The mutable state of `createRetryingBody` (closure variables plus the
observable side of the output stream and of resource-release effects).
`written` is the ordered list of chunks written to the output; a chunk is a
list of bytes.  `transportCalls` counts every `mediatorHttp.mediate`
invocation, including the initial one performed by `run`.
`orphanDestroyed` counts retry response bodies destroyed without being piped;
`currentDestroyed` records whether `destroy` was called on the current
attempt's source. -/
structure MachineState where
  attempts : Nat
  done : Bool
  retrying : Bool
  bufferedBytes : Nat
  chunks : List (List Nat)
  mode : Mode
  bodyEnded : Bool
  output : OutputStatus
  written : List (List Nat)
  transportCalls : Nat
  orphanDestroyed : Nat
  currentDestroyed : Bool
deriving DecidableEq, Repr

/-- `done || output.destroyed`. -/
def isOutputClosed (s : MachineState) : Bool :=
  s.done || (match s.output with | .destroyed _ => true | _ => false)

/-- `output.write(chunk)`: appends a chunk when the stream is open, a no-op
otherwise. -/
def writeOut (s : MachineState) (chunk : List Nat) : MachineState :=
  match s.output with
  | .opened => { s with written := s.written ++ [chunk] }
  | _ => s

/-- `output.end()`: ends an open stream; the close callback registered in
`createRetryingBody` then sets `done` and destroys the current body. -/
def endOut (s : MachineState) : MachineState :=
  match s.output with
  | .opened => { s with output := .ended, done := true, currentDestroyed := true }
  | _ => s

/-- `output.destroy(error?)`: destroys an open stream (a no-op once the stream
is already destroyed or ended, matching stream semantics); the close/error
callbacks then set `done` and destroy the current body. -/
def destroyOut (s : MachineState) (error : Option JSError) : MachineState :=
  match s.output with
  | .opened => { s with output := .destroyed error, done := true, currentDestroyed := true }
  | _ => s

/-- The per-request configuration captured by `createRetryingBody`. -/
structure Config where
  attemptLimit : Nat
  retryDelayFallback : Nat
  maxBytes : Option Nat
  url : String
deriving DecidableEq, Repr

/-- The transport's view of a retry response: `ok` flag and body presence. -/
structure MediateResponse where
  ok : Bool
  hasBody : Bool
deriving DecidableEq, Repr

/-- Outcome of one `mediatorHttp.mediate` call: the promise rejects with a
value, or resolves with a response. -/
inductive MediateOutcome where
  | rejected (v : JSVal)
  | resolved (r : MediateResponse)
deriving DecidableEq, Repr

/-- Oracle for one execution of `handleStreamError`: the abort-signal states
read at failure time, whether the `logDebug` side effect throws, whether the
consumer destroys the output during the inter-attempt sleep, the transport
outcome, and whether the consumer destroys the output while the transport
call is in flight. -/
structure RetryEnv where
  initSignalAborted : Bool
  contextSignalAborted : Bool
  logThrows : Option JSVal
  outputClosedDuringDelay : Bool
  mediate : MediateOutcome
  outputClosedAfterMediate : Bool
deriving DecidableEq, Repr

/-- `handleStreamError(error)` together with the `.catch` at its call sites:
drop the signal when a retry is in progress or the output is closed; fail the
output when an abort signal is active or the attempt limit is reached;
otherwise mark the retry in progress, bump the attempt ordinal, log (a throw
here rejects the promise and the call-site catch destroys the output, with
`retrying` left set), destroy the current body, sleep when a positive delay is
configured (abandoning everything if the output closes meanwhile), re-mediate,
and either fail the output (rejection, or not-ok/bodyless response), destroy
the orphaned body (output closed while in flight), or pipe the new body as the
next attempt. -/
def handleStreamError (cfg : Config) (env : RetryEnv) (error : JSVal)
    (s : MachineState) : MachineState :=
  if s.retrying || isOutputClosed s then s
  else if env.initSignalAborted || env.contextSignalAborted then
    destroyOut s (some (toJSError error))
  else if cfg.attemptLimit ≤ s.attempts then
    destroyOut s (some (toJSError error))
  else
    let s1 := { s with retrying := true, attempts := s.attempts + 1 }
    match env.logThrows with
    | some v => destroyOut s1 (some (toJSError v))
    | none =>
      let s2 := { s1 with currentDestroyed := true }
      let s3 := if 0 < cfg.retryDelayFallback && env.outputClosedDuringDelay
                then destroyOut s2 none else s2
      if isOutputClosed s3 then { s3 with retrying := false }
      else
        let s4 := { s3 with transportCalls := s3.transportCalls + 1 }
        match env.mediate with
        | .rejected v => { destroyOut s4 (some (toJSError v)) with retrying := false }
        | .resolved resp =>
          let s5 := if env.outputClosedAfterMediate then destroyOut s4 none else s4
          if !resp.ok || !resp.hasBody then
            { destroyOut s5 (some ⟨"Response body retry failed for " ++ cfg.url⟩) with
                retrying := false }
          else if isOutputClosed s5 then
            { s5 with orphanDestroyed := s5.orphanDestroyed + 1, retrying := false }
          else
            { s5 with mode := .buffering, bufferedBytes := 0, chunks := [],
                      bodyEnded := false, currentDestroyed := false, retrying := false }

/-- The `data` listener while buffering: account the chunk, and on strict
overflow of `maxBytes` remove the buffering listeners, flush the buffer
(abandoning the flush when the output is closed), and switch to pass-through
streaming. -/
def onData (cfg : Config) (s : MachineState) (chunk : List Nat) : MachineState :=
  let s1 := { s with bufferedBytes := s.bufferedBytes + chunk.length,
                     chunks := s.chunks ++ [chunk] }
  match cfg.maxBytes with
  | none => s1
  | some maxB =>
    if s1.bufferedBytes > maxB then
      if isOutputClosed s1 then { s1 with mode := .idle }
      else
        { s1 with written := s1.written ++ s1.chunks, chunks := [],
                  mode := .passthrough, bodyEnded := false }
    else s1

/-- The `end` listener while buffering: remove the listeners, and unless the
output is closed flush the whole buffer in order and end the output. -/
def onEnd (s : MachineState) : MachineState :=
  let s1 := { s with mode := .idle }
  if isOutputClosed s1 then { s1 with done := true }
  else
    endOut { s1 with written := s1.written ++ s1.chunks, chunks := [], done := true }

/-- The `error` listener while buffering: remove the listeners, and unless the
output is closed run `handleStreamError` with the emitted value. -/
def onErrorEvt (cfg : Config) (env : RetryEnv) (error : JSVal)
    (s : MachineState) : MachineState :=
  let s1 := { s with mode := .idle }
  if isOutputClosed s1 then { s1 with done := true }
  else handleStreamError cfg env error s1

/-- The error used when the body closes before `end` while buffering. -/
def prematureCloseError : JSVal :=
  .jsError "Response body closed before end during body retry"

/-- The `close` listener while buffering: a premature close is handled as a
stream error with `prematureCloseError`. -/
def onCloseEvt (cfg : Config) (env : RetryEnv) (s : MachineState) : MachineState :=
  onErrorEvt cfg env prematureCloseError s

/-- The error used when the body closes before `end` in pass-through mode. -/
def overflowCloseError : JSError :=
  ⟨"Response body closed before end after disabling body retry due to maxBytes"⟩

/-- An event observed by the machine: a source `data`/`end`/`error`/`close`
event of the current body (failure events carry the oracle for the retry they
may trigger), or the consumer destroying the output. -/
inductive Event where
  | data (chunk : List Nat)
  | ended
  | errored (error : JSVal) (env : RetryEnv)
  | closed (env : RetryEnv)
  | cancel
deriving Repr

/-- One step of the machine: dispatch an event to the listeners attached in
the current mode.  In pass-through mode `data` is piped directly, `end` marks
the body ended (the pipe ends the output), `error` destroys the output with
the normalized value, and a premature `close` destroys the output with
`overflowCloseError`.  With no listeners attached the event is dropped.
`cancel` is the consumer destroying the output at any time. -/
def step (cfg : Config) (s : MachineState) : Event → MachineState
  | .data chunk =>
    match s.mode with
    | .buffering => onData cfg s chunk
    | .passthrough => writeOut s chunk
    | .idle => s
  | .ended =>
    match s.mode with
    | .buffering => onEnd s
    | .passthrough => endOut { s with bodyEnded := true }
    | .idle => s
  | .errored error env =>
    match s.mode with
    | .buffering => onErrorEvt cfg env error s
    | .passthrough => destroyOut s (some (toJSError error))
    | .idle => s
  | .closed env =>
    match s.mode with
    | .buffering => onCloseEvt cfg env s
    | .passthrough =>
      if !s.bodyEnded && !isOutputClosed s then destroyOut s (some overflowCloseError)
      else s
    | .idle => s
  | .cancel => destroyOut s none

/-- The state right after `run` performed the initial mediate call and
`createRetryingBody` piped the initial body as attempt 1. -/
def initState : MachineState :=
  { attempts := 1, done := false, retrying := false, bufferedBytes := 0,
    chunks := [], mode := .buffering, bodyEnded := false, output := .opened,
    written := [], transportCalls := 1, orphanDestroyed := 0,
    currentDestroyed := false }

/-- Run the machine over a list of events. -/
def runEvents (cfg : Config) (s : MachineState) (events : List Event) : MachineState :=
  events.foldl (step cfg) s

/-- Total byte count of a list of chunks. -/
def chunkBytes (chunks : List (List Nat)) : Nat :=
  (chunks.map List.length).sum

/-- Spec-side check (a) of the pre-flight gate, following the spec's words:
the retry count is present and at least 1. -/
def specCheckRetryCount (action : HttpAction) : Bool :=
  match action.retryCount with
  | some n => decide (1 ≤ n)
  | none => false

/-- Spec-side check (b) of the pre-flight gate, following the spec's words:
the method is idempotent or unsafe retries are allowed. -/
def specCheckMethod (action : HttpAction) : Bool :=
  isIdempotentMethod (getRequestMethod action) || action.allowUnsafe.getD false

/-- Spec-side check (c) of the pre-flight gate, following the spec's words:
the payload is replayable or unsafe retries are allowed. -/
def specCheckPayload (action : HttpAction) : Bool :=
  isReplayableRequestBody action || action.allowUnsafe.getD false

/-- A retry oracle for the failure of an attempt whose retry completes
cleanly: no abort signal active, logging succeeds, the consumer never closes
the output during a suspension, and the transport resolves with an ok
response carrying a body. -/
def RetryEnv.cleanSuccess (env : RetryEnv) : Prop :=
  env.initSignalAborted = false ∧ env.contextSignalAborted = false ∧
  env.logThrows = none ∧ env.outputClosedDuringDelay = false ∧
  env.mediate = .resolved ⟨true, true⟩ ∧ env.outputClosedAfterMediate = false

/-- The canonical clean-retry oracle. -/
def cleanRetryEnv : RetryEnv :=
  { initSignalAborted := false, contextSignalAborted := false, logThrows := none,
    outputClosedDuringDelay := false, mediate := .resolved ⟨true, true⟩,
    outputClosedAfterMediate := false }

/-- A state in which the current attempt is healthily buffering: its
listeners are attached, no retry is in flight, and the output is open. -/
def MachineState.liveBuffering (s : MachineState) : Prop :=
  s.mode = .buffering ∧ s.retrying = false ∧ s.done = false ∧ s.output = .opened

/-! ## Basic lemmas about event runs -/

theorem runEvents_nil (cfg : Config) (s : MachineState) : runEvents cfg s [] = s := rfl

theorem runEvents_cons (cfg : Config) (s : MachineState) (e : Event) (evs : List Event) :
    runEvents cfg s (e :: evs) = runEvents cfg (step cfg s e) evs := rfl

theorem runEvents_append (cfg : Config) (s : MachineState) (l₁ l₂ : List Event) :
    runEvents cfg s (l₁ ++ l₂) = runEvents cfg (runEvents cfg s l₁) l₂ := by
  simp [runEvents, List.foldl_append]

theorem runEvents_singleton (cfg : Config) (s : MachineState) (ev : Event) :
    runEvents cfg s [ev] = step cfg s ev := rfl

/-! ## Step lemmas for the buffering phase -/

/-- A `data` event that does not trip the byte ceiling only accumulates the
chunk into the per-attempt buffer. -/
theorem step_data_buffering (cfg : Config) (s : MachineState) (c : List Nat)
    (hmode : s.mode = .buffering)
    (hceil : ∀ m, cfg.maxBytes = some m → s.bufferedBytes + c.length ≤ m) :
    step cfg s (.data c) =
      { s with bufferedBytes := s.bufferedBytes + c.length, chunks := s.chunks ++ [c] } := by
  simp only [step, hmode]
  unfold onData
  cases hmax : cfg.maxBytes with
  | none => simp [hmode]
  | some m =>
    have h := hceil m hmax
    have hno : ¬ (s.bufferedBytes + c.length > m) := by omega
    simp [hno, hmode]

/-- Running a list of `data` events none of which trips the byte ceiling
accumulates all chunks, in order, into the per-attempt buffer, with no other
change: in particular nothing is written to the output. -/
theorem runEvents_data_buffering (cfg : Config) (cs : List (List Nat)) :
    ∀ (s : MachineState), s.mode = .buffering →
    (∀ m, cfg.maxBytes = some m → s.bufferedBytes + chunkBytes cs ≤ m) →
    runEvents cfg s (cs.map .data) =
      { s with bufferedBytes := s.bufferedBytes + chunkBytes cs,
               chunks := s.chunks ++ cs } := by
  induction cs with
  | nil => intro s _ _; simp [runEvents, chunkBytes]
  | cons c cs ih =>
    intro s hmode hceil
    have hceil1 : ∀ m, cfg.maxBytes = some m → s.bufferedBytes + c.length ≤ m := by
      intro m hm
      have := hceil m hm
      simp [chunkBytes] at this
      omega
    rw [List.map_cons, runEvents_cons, step_data_buffering cfg s c hmode hceil1,
      ih _ (by simp [hmode])
        (by intro m hm; have := hceil m hm; simp [chunkBytes] at this ⊢; omega)]
    simp [chunkBytes, Nat.add_assoc, List.append_assoc]

/-- The `end` event on a live buffering attempt flushes the whole buffer, in
order, then ends the output. -/
theorem step_end_buffering (cfg : Config) (s : MachineState)
    (hmode : s.mode = .buffering) (hdone : s.done = false) (hout : s.output = .opened) :
    step cfg s .ended =
      { s with mode := .idle, written := s.written ++ s.chunks, chunks := [],
               done := true, output := .ended, currentDestroyed := true } := by
  simp only [step, hmode]
  unfold onEnd
  simp [isOutputClosed, hdone, hout, endOut]

/-- A failure event on a live buffering attempt below the attempt limit, whose
retry completes cleanly, discards the buffer, invokes the transport once more,
and begins buffering the new attempt with fresh accounting; nothing is written
to the output. -/
theorem step_error_retry_success (cfg : Config) (s : MachineState) (e : JSVal)
    (env : RetryEnv) (hmode : s.mode = .buffering) (hret : s.retrying = false)
    (hdone : s.done = false) (hout : s.output = .opened)
    (hatt : s.attempts < cfg.attemptLimit) (henv : env.cleanSuccess) :
    step cfg s (.errored e env) =
      { s with attempts := s.attempts + 1, retrying := false, bufferedBytes := 0,
               chunks := [], mode := .buffering, bodyEnded := false,
               transportCalls := s.transportCalls + 1, currentDestroyed := false } := by
  obtain ⟨h1, h2, h3, h4, h5, h6⟩ := henv
  simp only [step, hmode]
  unfold onErrorEvt handleStreamError
  have hlim : ¬ (cfg.attemptLimit ≤ s.attempts) := by omega
  simp [isOutputClosed, hdone, hout, hret, h1, h2, h3, h4, h5, h6, hlim, destroyOut]

/-! ## Claim C1: a failed attempt's buffer is discarded, never forwarded -/

/-- While buffering, a `close` event is handled exactly as an `error` event
carrying `prematureCloseError`. -/
theorem step_closed_eq_errored (cfg : Config) (s : MachineState) (env : RetryEnv)
    (hmode : s.mode = .buffering) :
    step cfg s (.closed env) = step cfg s (.errored prematureCloseError env) := by
  simp [step, hmode, onCloseEvt]

/-- **C1** — When an attempt errors (or closes prematurely) while still
buffering and the retry succeeds, the output carries only the succeeding
attempt's bytes: after the first attempt buffers `cs1` and fails, and the
second attempt yields `cs2` cleanly, the final state has written exactly
`cs2` (the failed attempt's buffered bytes were discarded), the output
ended, and the transport invoked exactly twice. -/
theorem claim_C1_failed_buffer_discarded (cfg : Config) (cs1 : List (List Nat))
    (e : JSVal) (env : RetryEnv) (cs2 : List (List Nat))
    (hlim : 2 ≤ cfg.attemptLimit)
    (hceil1 : ∀ m, cfg.maxBytes = some m → chunkBytes cs1 ≤ m)
    (hceil2 : ∀ m, cfg.maxBytes = some m → chunkBytes cs2 ≤ m)
    (henv : env.cleanSuccess) :
    runEvents cfg initState
        (cs1.map Event.data ++ [Event.errored e env] ++ cs2.map Event.data ++
          [Event.ended]) =
      { attempts := 2, done := true, retrying := false,
        bufferedBytes := chunkBytes cs2, chunks := [], mode := .idle,
        bodyEnded := false, output := .ended, written := cs2,
        transportCalls := 2, orphanDestroyed := 0, currentDestroyed := true } ∧
    runEvents cfg initState
        (cs1.map Event.data ++ [Event.closed env] ++ cs2.map Event.data ++
          [Event.ended]) =
      { attempts := 2, done := true, retrying := false,
        bufferedBytes := chunkBytes cs2, chunks := [], mode := .idle,
        bodyEnded := false, output := .ended, written := cs2,
        transportCalls := 2, orphanDestroyed := 0, currentDestroyed := true } := by
  have hA : runEvents cfg initState (cs1.map Event.data) =
      { attempts := 1, done := false, retrying := false,
        bufferedBytes := chunkBytes cs1, chunks := cs1, mode := .buffering,
        bodyEnded := false, output := .opened, written := [],
        transportCalls := 1, orphanDestroyed := 0, currentDestroyed := false } := by
    rw [runEvents_data_buffering cfg cs1 initState rfl
      (by intro m hm; have := hceil1 m hm; show 0 + chunkBytes cs1 ≤ m; omega)]
    simp [initState]
  have hB : ∀ failure : JSVal, step cfg
      { attempts := 1, done := false, retrying := false,
        bufferedBytes := chunkBytes cs1, chunks := cs1, mode := .buffering,
        bodyEnded := false, output := .opened, written := [],
        transportCalls := 1, orphanDestroyed := 0, currentDestroyed := false }
      (Event.errored failure env) =
      { attempts := 2, done := false, retrying := false, bufferedBytes := 0,
        chunks := [], mode := .buffering, bodyEnded := false, output := .opened,
        written := [], transportCalls := 2, orphanDestroyed := 0,
        currentDestroyed := false } := by
    intro failure
    rw [step_error_retry_success cfg _ failure env rfl rfl rfl rfl
      (by show 1 < cfg.attemptLimit; omega) henv]
  have hC : runEvents cfg
      { attempts := 2, done := false, retrying := false, bufferedBytes := 0,
        chunks := [], mode := .buffering, bodyEnded := false, output := .opened,
        written := [], transportCalls := 2, orphanDestroyed := 0,
        currentDestroyed := false } (cs2.map Event.data) =
      { attempts := 2, done := false, retrying := false,
        bufferedBytes := chunkBytes cs2, chunks := cs2, mode := .buffering,
        bodyEnded := false, output := .opened, written := [],
        transportCalls := 2, orphanDestroyed := 0, currentDestroyed := false } := by
    rw [runEvents_data_buffering cfg cs2 _ rfl
      (by intro m hm; have := hceil2 m hm; show 0 + chunkBytes cs2 ≤ m; omega)]
    simp
  have hD : step cfg
      { attempts := 2, done := false, retrying := false,
        bufferedBytes := chunkBytes cs2, chunks := cs2, mode := .buffering,
        bodyEnded := false, output := .opened, written := [],
        transportCalls := 2, orphanDestroyed := 0, currentDestroyed := false }
      Event.ended =
      { attempts := 2, done := true, retrying := false,
        bufferedBytes := chunkBytes cs2, chunks := [], mode := .idle,
        bodyEnded := false, output := .ended, written := cs2,
        transportCalls := 2, orphanDestroyed := 0, currentDestroyed := true } := by
    rw [step_end_buffering cfg _ rfl rfl rfl]
    simp
  constructor
  · rw [runEvents_append, runEvents_append, runEvents_append]
    simp only [runEvents_singleton]
    rw [hA, hB e, hC, hD]
  · rw [runEvents_append, runEvents_append, runEvents_append]
    simp only [runEvents_singleton]
    rw [hA, step_closed_eq_errored cfg _ env rfl, hB prematureCloseError, hC, hD]

/-- Witness for C1: first attempt emits `abc` then errors with retry budget 1;
second attempt yields `def` cleanly; the output is exactly `def`. -/
theorem claim_C1_failed_buffer_discarded_witness :
    (runEvents ⟨2, 0, none, "http://example.org/"⟩ initState
        ([[97, 98, 99]].map Event.data ++
          [Event.errored (JSVal.jsError "boom") cleanRetryEnv] ++
          [[100, 101, 102]].map Event.data ++ [Event.ended])).written =
      [[100, 101, 102]] :=
  congrArg MachineState.written
    (claim_C1_failed_buffer_discarded ⟨2, 0, none, "http://example.org/"⟩
      [[97, 98, 99]] (JSVal.jsError "boom") cleanRetryEnv [[100, 101, 102]]
      (by decide) (by intro m hm; simp at hm) (by intro m hm; simp at hm)
      ⟨rfl, rfl, rfl, rfl, rfl, rfl⟩).1

/-! ## Claim C2: a clean attempt flushes exactly its bytes, after end -/

/-- **C2** — When the source ends cleanly while still buffering (the ceiling
never exceeded), nothing has been written before the end signal, and the end
signal flushes exactly the concatenation of the attempt's chunks, in order,
then ends the output; the transport was invoked exactly once. -/
theorem claim_C2_clean_attempt_flush (cfg : Config) (cs : List (List Nat))
    (hceil : ∀ m, cfg.maxBytes = some m → chunkBytes cs ≤ m) :
    (runEvents cfg initState (cs.map Event.data)).written = [] ∧
    runEvents cfg initState (cs.map Event.data ++ [Event.ended]) =
      { attempts := 1, done := true, retrying := false,
        bufferedBytes := chunkBytes cs, chunks := [], mode := .idle,
        bodyEnded := false, output := .ended, written := cs,
        transportCalls := 1, orphanDestroyed := 0, currentDestroyed := true } := by
  have hA : runEvents cfg initState (cs.map Event.data) =
      { attempts := 1, done := false, retrying := false,
        bufferedBytes := chunkBytes cs, chunks := cs, mode := .buffering,
        bodyEnded := false, output := .opened, written := [],
        transportCalls := 1, orphanDestroyed := 0, currentDestroyed := false } := by
    rw [runEvents_data_buffering cfg cs initState rfl
      (by intro m hm; have := hceil m hm; show 0 + chunkBytes cs ≤ m; omega)]
    simp [initState]
  refine ⟨by rw [hA], ?_⟩
  rw [runEvents_append, hA, runEvents_singleton,
    step_end_buffering cfg _ rfl rfl rfl]
  simp

/-- Witness for C2: a single clean attempt streaming `abc`, `de` yields
exactly those chunks in order with one transport call. -/
theorem claim_C2_clean_attempt_flush_witness :
    runEvents ⟨2, 0, none, "http://example.org/"⟩ initState
        ([[97, 98, 99], [100, 101]].map Event.data ++ [Event.ended]) =
      { attempts := 1, done := true, retrying := false,
        bufferedBytes := chunkBytes [[97, 98, 99], [100, 101]], chunks := [],
        mode := .idle, bodyEnded := false, output := .ended,
        written := [[97, 98, 99], [100, 101]], transportCalls := 1,
        orphanDestroyed := 0, currentDestroyed := true } :=
  (claim_C2_clean_attempt_flush ⟨2, 0, none, "http://example.org/"⟩
    [[97, 98, 99], [100, 101]] (by intro m hm; simp at hm)).2

/-! ## Claim C3: strict overflow check, sticky pass-through, no more retry -/

/-- Any single event in pass-through mode keeps the machine in pass-through
mode and never invokes the transport. -/
theorem step_passthrough (cfg : Config) (s : MachineState) (ev : Event)
    (hmode : s.mode = .passthrough) :
    (step cfg s ev).mode = .passthrough ∧
    (step cfg s ev).transportCalls = s.transportCalls := by
  cases ev with
  | data c => cases hout : s.output <;> simp [step, hmode, hout, writeOut]
  | ended => cases hout : s.output <;> simp [step, hmode, hout, endOut]
  | errored e env => cases hout : s.output <;> simp [step, hmode, hout, destroyOut]
  | closed env =>
    simp only [step, hmode]
    split
    · cases hout : s.output <;> simp [destroyOut, hout, hmode]
    · exact ⟨hmode, rfl⟩
  | cancel => cases hout : s.output <;> simp [step, hout, destroyOut, hmode]

/-- Pass-through mode is sticky over any sequence of events, and the
transport is never invoked again after overflow. -/
theorem runEvents_passthrough (cfg : Config) (evs : List Event) :
    ∀ s : MachineState, s.mode = .passthrough →
    (runEvents cfg s evs).mode = .passthrough ∧
    (runEvents cfg s evs).transportCalls = s.transportCalls := by
  induction evs with
  | nil => intro s h; exact ⟨h, rfl⟩
  | cons ev evs ih =>
    intro s h
    rw [runEvents_cons]
    obtain ⟨h1, h2⟩ := step_passthrough cfg s ev h
    obtain ⟨h3, h4⟩ := ih _ h1
    exact ⟨h3, by rw [h4, h2]⟩

/-- **C3** — The overflow test is strictly greater-than on the attempt's
cumulative bytes: a chunk reaching exactly the ceiling keeps buffering, while
a chunk strictly exceeding it flushes everything buffered so far, in order and
exactly once, and switches to pass-through streaming.  Pass-through mode is
sticky for the remainder of the request and never invokes the transport again,
subsequent chunks are forwarded directly without buffering, and a later error
or premature close on the same source destroys the output (terminal, never
retried). -/
theorem claim_C3_overflow_streaming :
    (∀ (cfg : Config) (m : Nat) (s : MachineState) (c : List Nat),
      cfg.maxBytes = some m → s.mode = .buffering → s.bufferedBytes + c.length ≤ m →
      step cfg s (.data c) =
        { s with bufferedBytes := s.bufferedBytes + c.length,
                 chunks := s.chunks ++ [c] }) ∧
    (∀ (cfg : Config) (m : Nat) (s : MachineState) (c : List Nat),
      cfg.maxBytes = some m → s.mode = .buffering → s.done = false →
      s.output = .opened → m < s.bufferedBytes + c.length →
      step cfg s (.data c) =
        { s with bufferedBytes := s.bufferedBytes + c.length, chunks := [],
                 written := s.written ++ (s.chunks ++ [c]), mode := .passthrough,
                 bodyEnded := false }) ∧
    (∀ (cfg : Config) (evs : List Event) (s : MachineState), s.mode = .passthrough →
      (runEvents cfg s evs).mode = .passthrough ∧
      (runEvents cfg s evs).transportCalls = s.transportCalls) ∧
    (∀ (cfg : Config) (s : MachineState) (c : List Nat), s.mode = .passthrough →
      s.output = .opened →
      step cfg s (.data c) = { s with written := s.written ++ [c] }) ∧
    (∀ (cfg : Config) (s : MachineState) (e : JSVal) (env : RetryEnv),
      s.mode = .passthrough → s.done = false → s.output = .opened →
      step cfg s (.errored e env) =
        { s with output := .destroyed (some (toJSError e)), done := true,
                 currentDestroyed := true }) ∧
    (∀ (cfg : Config) (s : MachineState) (env : RetryEnv),
      s.mode = .passthrough → s.bodyEnded = false → s.done = false →
      s.output = .opened →
      step cfg s (.closed env) =
        { s with output := .destroyed (some overflowCloseError), done := true,
                 currentDestroyed := true }) := by
  refine ⟨?_, ?_, ?_, ?_, ?_, ?_⟩
  · intro cfg m s c hm hmode hle
    exact step_data_buffering cfg s c hmode
      (by intro m' hm'; rw [hm] at hm'; injection hm' with hmm; omega)
  · intro cfg m s c hm hmode hdone hout hlt
    simp only [step, hmode]
    unfold onData
    rw [hm]
    simp [isOutputClosed, hdone, hout, hmode, Nat.lt_iff_add_one_le, hlt]
  · intro cfg evs s h
    exact runEvents_passthrough cfg evs s h
  · intro cfg s c hmode hout
    simp [step, hmode, writeOut, hout]
  · intro cfg s e env hmode hdone hout
    simp [step, hmode, destroyOut, hout]
  · intro cfg s env hmode hbody hdone hout
    simp [step, hmode, hbody, isOutputClosed, hdone, hout, destroyOut]

/-- Witness for C3 at concrete inputs: with a ceiling of 2, a 3-byte chunk
trips pass-through and is forwarded at once; a later error destroys the
output with no further transport call. -/
theorem claim_C3_overflow_streaming_witness :
    step ⟨2, 0, some 2, "http://example.org/"⟩
        { attempts := 1, done := false, retrying := false, bufferedBytes := 0,
          chunks := [], mode := .buffering, bodyEnded := false,
          output := .opened, written := [], transportCalls := 1,
          orphanDestroyed := 0, currentDestroyed := false }
        (.data [97, 98, 99]) =
      { attempts := 1, done := false, retrying := false, bufferedBytes := 3,
        chunks := [], mode := .passthrough, bodyEnded := false,
        output := .opened, written := [[97, 98, 99]], transportCalls := 1,
        orphanDestroyed := 0, currentDestroyed := false } ∧
    (runEvents ⟨2, 0, some 2, "http://example.org/"⟩
        { attempts := 1, done := false, retrying := false, bufferedBytes := 3,
          chunks := [], mode := .passthrough, bodyEnded := false,
          output := .opened, written := [[97, 98, 99]], transportCalls := 1,
          orphanDestroyed := 0, currentDestroyed := false }
        [.errored (JSVal.jsError "late error") cleanRetryEnv]).transportCalls = 1 := by
  constructor
  · have h := claim_C3_overflow_streaming.2.1 ⟨2, 0, some 2, "http://example.org/"⟩ 2
      { attempts := 1, done := false, retrying := false, bufferedBytes := 0,
        chunks := [], mode := .buffering, bodyEnded := false,
        output := .opened, written := [], transportCalls := 1,
        orphanDestroyed := 0, currentDestroyed := false }
      [97, 98, 99] rfl rfl rfl rfl (by decide)
    simpa using h
  · exact (claim_C3_overflow_streaming.2.2.1 ⟨2, 0, some 2, "http://example.org/"⟩
      [.errored (JSVal.jsError "late error") cleanRetryEnv] _ rfl).2

/-! ## Claim C4: failure at the attempt limit is terminal -/

/-- **C4** — A stream failure arriving when the attempt ordinal has reached
the attempt limit destroys the output with the (normalized) triggering error
and performs no further transport call; concretely, with retry budget 1 and
both attempts failing, the output errors with the second attempt's error and
the transport was invoked exactly twice. -/
theorem claim_C4_retry_budget_exhausted :
    (∀ (cfg : Config) (s : MachineState) (e : JSVal) (env : RetryEnv),
      s.mode = .buffering → s.retrying = false → s.done = false →
      s.output = .opened → env.initSignalAborted = false →
      env.contextSignalAborted = false → cfg.attemptLimit ≤ s.attempts →
      step cfg s (.errored e env) =
        { s with mode := .idle, output := .destroyed (some (toJSError e)),
                 done := true, currentDestroyed := true }) ∧
    runEvents ⟨2, 0, none, "http://example.org/"⟩ initState
        [.errored (JSVal.jsError "first error") cleanRetryEnv,
         .errored (JSVal.jsError "second error") cleanRetryEnv] =
      { attempts := 2, done := true, retrying := false, bufferedBytes := 0,
        chunks := [], mode := .idle, bodyEnded := false,
        output := .destroyed (some ⟨"second error"⟩), written := [],
        transportCalls := 2, orphanDestroyed := 0, currentDestroyed := true } := by
  constructor
  · intro cfg s e env hmode hret hdone hout h1 h2 hlim
    simp only [step, hmode]
    unfold onErrorEvt handleStreamError
    simp [isOutputClosed, hdone, hout, hret, h1, h2, hlim, destroyOut]
  · rfl

/-- Witness for C4's general part: a live second attempt under attempt limit
2 failing destroys the output with that error and no transport call. -/
theorem claim_C4_retry_budget_exhausted_witness :
    step ⟨2, 0, none, "http://example.org/"⟩
        { attempts := 2, done := false, retrying := false, bufferedBytes := 0,
          chunks := [], mode := .buffering, bodyEnded := false,
          output := .opened, written := [], transportCalls := 2,
          orphanDestroyed := 0, currentDestroyed := false }
        (.errored (JSVal.jsError "second error") cleanRetryEnv) =
      { attempts := 2, done := true, retrying := false, bufferedBytes := 0,
        chunks := [], mode := .idle, bodyEnded := false,
        output := .destroyed (some ⟨"second error"⟩), written := [],
        transportCalls := 2, orphanDestroyed := 0, currentDestroyed := true } :=
  claim_C4_retry_budget_exhausted.1 ⟨2, 0, none, "http://example.org/"⟩
    { attempts := 2, done := false, retrying := false, bufferedBytes := 0,
      chunks := [], mode := .buffering, bodyEnded := false,
      output := .opened, written := [], transportCalls := 2,
      orphanDestroyed := 0, currentDestroyed := false }
    (JSVal.jsError "second error") cleanRetryEnv rfl rfl rfl rfl rfl rfl
    (by decide)

/-! ## Claim C5: only the first failure signal initiates retry handling -/

/-- **C5** — When a retry is already in progress for an attempt, a further
failure signal (error or close) mutates neither the output, nor the written
data, nor the transport count, nor the attempt ordinal; and once the failure
listeners have been removed (idle mode, as after the first signal's
`cleanup`), any further error or close signal is dropped entirely. -/
theorem claim_C5_overlapping_failure_signals :
    (∀ (cfg : Config) (s : MachineState) (e : JSVal) (env : RetryEnv),
      s.retrying = true → s.mode = .buffering →
      ((step cfg s (.errored e env)).output = s.output ∧
       (step cfg s (.errored e env)).written = s.written ∧
       (step cfg s (.errored e env)).transportCalls = s.transportCalls ∧
       (step cfg s (.errored e env)).attempts = s.attempts) ∧
      ((step cfg s (.closed env)).output = s.output ∧
       (step cfg s (.closed env)).written = s.written ∧
       (step cfg s (.closed env)).transportCalls = s.transportCalls ∧
       (step cfg s (.closed env)).attempts = s.attempts)) ∧
    (∀ (cfg : Config) (s : MachineState) (e : JSVal) (env : RetryEnv),
      s.mode = .idle → step cfg s (.errored e env) = s ∧ step cfg s (.closed env) = s) := by
  constructor
  · intro cfg s e env hret hmode
    constructor
    · simp only [step, hmode]
      unfold onErrorEvt handleStreamError
      simp [hret]
      split <;> simp
    · simp only [step, hmode]
      unfold onCloseEvt onErrorEvt handleStreamError
      simp [hret]
      split <;> simp
  · intro cfg s e env hmode
    constructor <;> simp [step, hmode]

/-- Witness for C5: with a retry in progress, an error signal leaves output,
written data, transport count and attempt ordinal untouched. -/
theorem claim_C5_overlapping_failure_signals_witness :
    (step ⟨2, 0, none, "http://example.org/"⟩
        { attempts := 2, done := false, retrying := true, bufferedBytes := 0,
          chunks := [], mode := .buffering, bodyEnded := false,
          output := .opened, written := [], transportCalls := 2,
          orphanDestroyed := 0, currentDestroyed := true }
        (.errored (JSVal.jsError "duplicate signal") cleanRetryEnv)).transportCalls = 2 :=
  ((claim_C5_overlapping_failure_signals.1 ⟨2, 0, none, "http://example.org/"⟩
    { attempts := 2, done := false, retrying := true, bufferedBytes := 0,
      chunks := [], mode := .buffering, bodyEnded := false,
      output := .opened, written := [], transportCalls := 2,
      orphanDestroyed := 0, currentDestroyed := true }
    (JSVal.jsError "duplicate signal") cleanRetryEnv rfl rfl).1).2.2.1

/-! ## Claim C6: failure under an active abort signal is terminal -/

/-- **C6** — When either abort signal is already aborted at the moment a
stream failure reaches the machine with the output still open, the output is
destroyed immediately with the (normalized) original triggering error and the
transport is not invoked (the state equality shows `transportCalls`
unchanged). -/
theorem claim_C6_abort_signal_active (cfg : Config) (s : MachineState)
    (e : JSVal) (env : RetryEnv) (hmode : s.mode = .buffering)
    (hret : s.retrying = false) (hdone : s.done = false)
    (hout : s.output = .opened)
    (habort : (env.initSignalAborted || env.contextSignalAborted) = true) :
    step cfg s (.errored e env) =
      { s with mode := .idle, output := .destroyed (some (toJSError e)),
               done := true, currentDestroyed := true } ∧
    step cfg s (.closed env) =
      { s with mode := .idle,
               output := .destroyed (some (toJSError prematureCloseError)),
               done := true, currentDestroyed := true } := by
  constructor
  · simp only [step, hmode]
    unfold onErrorEvt handleStreamError
    simp [isOutputClosed, hdone, hout, hret, habort, destroyOut]
  · simp only [step, hmode]
    unfold onCloseEvt onErrorEvt handleStreamError
    simp [isOutputClosed, hdone, hout, hret, habort, destroyOut]

/-- Witness for C6: with the request's init signal aborted, a non-Error
failure value destroys the output with its normalized form at once. -/
theorem claim_C6_abort_signal_active_witness :
    step ⟨2, 0, none, "http://example.org/"⟩ initState
        (.errored (JSVal.nonError "42")
          { cleanRetryEnv with initSignalAborted := true }) =
      { attempts := 1, done := true, retrying := false, bufferedBytes := 0,
        chunks := [], mode := .idle, bodyEnded := false,
        output := .destroyed (some ⟨"42"⟩), written := [], transportCalls := 1,
        orphanDestroyed := 0, currentDestroyed := true } :=
  (claim_C6_abort_signal_active ⟨2, 0, none, "http://example.org/"⟩ initState
    (JSVal.nonError "42") { cleanRetryEnv with initSignalAborted := true }
    rfl rfl rfl rfl rfl).1

/-! ## Claim C7: a closed output is never mutated again -/

/-- Once the output stream is closed (`done` set and the stream no longer
open), no event changes the output status, the written data, or the
transport count. -/
theorem step_output_closed (cfg : Config) (s : MachineState) (ev : Event)
    (hdone : s.done = true) (hout : s.output ≠ .opened) :
    (step cfg s ev).output = s.output ∧ (step cfg s ev).written = s.written ∧
    (step cfg s ev).transportCalls = s.transportCalls := by
  cases ev with
  | data c =>
    cases hmode : s.mode with
    | buffering =>
      simp only [step, hmode]
      unfold onData
      cases cfg.maxBytes with
      | none => simp
      | some m =>
        by_cases hb : s.bufferedBytes + c.length > m
        · simp [hb, isOutputClosed, hdone]
        · simp [hb]
    | passthrough =>
      simp only [step, hmode]
      unfold writeOut
      cases houts : s.output with
      | opened => exact absurd houts hout
      | ended => simp [houts]
      | destroyed err => simp [houts]
    | idle => simp [step, hmode]
  | ended =>
    cases hmode : s.mode with
    | buffering =>
      simp only [step, hmode]
      unfold onEnd
      simp [isOutputClosed, hdone]
    | passthrough =>
      simp only [step, hmode]
      unfold endOut
      cases houts : s.output with
      | opened => exact absurd houts hout
      | ended => simp [houts]
      | destroyed err => simp [houts]
    | idle => simp [step, hmode]
  | errored e env =>
    cases hmode : s.mode with
    | buffering =>
      simp only [step, hmode]
      unfold onErrorEvt
      simp [isOutputClosed, hdone]
    | passthrough =>
      simp only [step, hmode]
      unfold destroyOut
      cases houts : s.output with
      | opened => exact absurd houts hout
      | ended => simp [houts]
      | destroyed err => simp [houts]
    | idle => simp [step, hmode]
  | closed env =>
    cases hmode : s.mode with
    | buffering =>
      simp only [step, hmode]
      unfold onCloseEvt onErrorEvt
      simp [isOutputClosed, hdone]
    | passthrough =>
      simp only [step, hmode]
      simp [isOutputClosed, hdone]
    | idle => simp [step, hmode]
  | cancel =>
    simp only [step]
    unfold destroyOut
    cases houts : s.output with
    | opened => exact absurd houts hout
    | ended => simp [houts]
    | destroyed err => simp [houts]

/-- **C7** — Once the output is closed, no event mutates it: output status,
written data and transport count are all preserved.  If the consumer closes
the output during the inter-attempt delay, the retry is abandoned with no
transport call and no write; and a retry response arriving after the output
has closed has its body destroyed rather than piped (no new buffering
attempt starts). -/
theorem claim_C7_closed_output_immutable :
    (∀ (cfg : Config) (s : MachineState) (ev : Event),
      s.done = true → s.output ≠ .opened →
      (step cfg s ev).output = s.output ∧ (step cfg s ev).written = s.written ∧
      (step cfg s ev).transportCalls = s.transportCalls) ∧
    (∀ (cfg : Config) (s : MachineState) (e : JSVal) (env : RetryEnv),
      s.mode = .buffering → s.retrying = false → s.done = false →
      s.output = .opened → env.initSignalAborted = false →
      env.contextSignalAborted = false → s.attempts < cfg.attemptLimit →
      env.logThrows = none → 0 < cfg.retryDelayFallback →
      env.outputClosedDuringDelay = true →
      (step cfg s (.errored e env)).transportCalls = s.transportCalls ∧
      (step cfg s (.errored e env)).written = s.written ∧
      (step cfg s (.errored e env)).mode = .idle ∧
      (step cfg s (.errored e env)).output = .destroyed none) ∧
    (∀ (cfg : Config) (s : MachineState) (e : JSVal) (env : RetryEnv),
      s.mode = .buffering → s.retrying = false → s.done = false →
      s.output = .opened → env.initSignalAborted = false →
      env.contextSignalAborted = false → s.attempts < cfg.attemptLimit →
      env.logThrows = none → env.outputClosedDuringDelay = false →
      env.mediate = .resolved ⟨true, true⟩ → env.outputClosedAfterMediate = true →
      (step cfg s (.errored e env)).orphanDestroyed = s.orphanDestroyed + 1 ∧
      (step cfg s (.errored e env)).mode = .idle ∧
      (step cfg s (.errored e env)).written = s.written ∧
      (step cfg s (.errored e env)).transportCalls = s.transportCalls + 1 ∧
      (step cfg s (.errored e env)).output = .destroyed none) := by
  refine ⟨step_output_closed, ?_, ?_⟩
  · intro cfg s e env hmode hret hdone hout h1 h2 hatt h3 hdelay h4
    have hlim : ¬ (cfg.attemptLimit ≤ s.attempts) := by omega
    simp only [step, hmode]
    unfold onErrorEvt handleStreamError
    simp [isOutputClosed, hdone, hout, hret, h1, h2, h3, h4, hlim, hdelay,
      destroyOut]
  · intro cfg s e env hmode hret hdone hout h1 h2 hatt h3 h4 h5 h6
    have hlim : ¬ (cfg.attemptLimit ≤ s.attempts) := by omega
    simp only [step, hmode]
    unfold onErrorEvt handleStreamError
    simp [isOutputClosed, hdone, hout, hret, h1, h2, h3, h4, h5, h6, hlim,
      destroyOut]

/-- Witness for C7: the consumer closing the output during a positive
inter-attempt delay abandons the retry (no transport call), and a retry
response arriving after the consumer closed the output has its body
destroyed. -/
theorem claim_C7_closed_output_immutable_witness :
    ((step ⟨2, 5, none, "http://example.org/"⟩ initState
        (.errored (JSVal.jsError "boom")
          { cleanRetryEnv with outputClosedDuringDelay := true })).transportCalls = 1 ∧
      (step ⟨2, 5, none, "http://example.org/"⟩ initState
        (.errored (JSVal.jsError "boom")
          { cleanRetryEnv with outputClosedDuringDelay := true })).output =
        .destroyed none) ∧
    (step ⟨2, 0, none, "http://example.org/"⟩ initState
        (.errored (JSVal.jsError "boom")
          { cleanRetryEnv with outputClosedAfterMediate := true })).orphanDestroyed = 1 := by
  refine ⟨⟨?_, ?_⟩, ?_⟩
  · exact (claim_C7_closed_output_immutable.2.1 ⟨2, 5, none, "http://example.org/"⟩
      initState (JSVal.jsError "boom")
      { cleanRetryEnv with outputClosedDuringDelay := true }
      rfl rfl rfl rfl rfl rfl (by decide) rfl (by decide) rfl).1
  · exact (claim_C7_closed_output_immutable.2.1 ⟨2, 5, none, "http://example.org/"⟩
      initState (JSVal.jsError "boom")
      { cleanRetryEnv with outputClosedDuringDelay := true }
      rfl rfl rfl rfl rfl rfl (by decide) rfl (by decide) rfl).2.2.2
  · exact (claim_C7_closed_output_immutable.2.2 ⟨2, 0, none, "http://example.org/"⟩
      initState (JSVal.jsError "boom")
      { cleanRetryEnv with outputClosedAfterMediate := true }
      rfl rfl rfl rfl rfl rfl (by decide) rfl rfl rfl rfl).1

/-! ## Claim C8: retry-processing failures terminate the output, normalized -/

/-- **C8** — An unexpected failure while processing a retry terminates the
output with an error rather than leaving it hanging: a throw from the logging
side effect destroys the output with that value normalized, and a transport
call that rejects destroys the output with the rejection value normalized.
Normalization turns a non-Error value into a structured Error carrying its
textual rendering, and leaves a structured Error unchanged. -/
theorem claim_C8_retry_failure_normalized :
    (∀ (cfg : Config) (s : MachineState) (e : JSVal) (env : RetryEnv) (v : JSVal),
      s.mode = .buffering → s.retrying = false → s.done = false →
      s.output = .opened → env.initSignalAborted = false →
      env.contextSignalAborted = false → s.attempts < cfg.attemptLimit →
      env.logThrows = some v →
      (step cfg s (.errored e env)).output = .destroyed (some (toJSError v))) ∧
    (∀ (cfg : Config) (s : MachineState) (e : JSVal) (env : RetryEnv) (v : JSVal),
      s.mode = .buffering → s.retrying = false → s.done = false →
      s.output = .opened → env.initSignalAborted = false →
      env.contextSignalAborted = false → s.attempts < cfg.attemptLimit →
      env.logThrows = none → env.outputClosedDuringDelay = false →
      env.mediate = .rejected v →
      (step cfg s (.errored e env)).output = .destroyed (some (toJSError v))) ∧
    (∀ r : String, toJSError (.nonError r) = ⟨r⟩) ∧
    (∀ m : String, toJSError (.jsError m) = ⟨m⟩) := by
  refine ⟨?_, ?_, fun _ => rfl, fun _ => rfl⟩
  · intro cfg s e env v hmode hret hdone hout h1 h2 hatt hlog
    have hlim : ¬ (cfg.attemptLimit ≤ s.attempts) := by omega
    simp only [step, hmode]
    unfold onErrorEvt handleStreamError
    simp [isOutputClosed, hdone, hout, hret, h1, h2, hlog, hlim, destroyOut]
  · intro cfg s e env v hmode hret hdone hout h1 h2 hatt h3 h4 h5
    have hlim : ¬ (cfg.attemptLimit ≤ s.attempts) := by omega
    simp only [step, hmode]
    unfold onErrorEvt handleStreamError
    simp [isOutputClosed, hdone, hout, hret, h1, h2, h3, h4, h5, hlim,
      destroyOut]

/-- Witness for C8: a non-Error value thrown by logging destroys the output
with a structured error carrying its rendering, and a transport rejection
destroys the output with the rejection normalized. -/
theorem claim_C8_retry_failure_normalized_witness :
    (step ⟨2, 0, none, "http://example.org/"⟩ initState
        (.errored (JSVal.jsError "boom")
          { cleanRetryEnv with logThrows := some (JSVal.nonError "logging exploded") })).output =
      .destroyed (some ⟨"logging exploded"⟩) ∧
    (step ⟨2, 0, none, "http://example.org/"⟩ initState
        (.errored (JSVal.jsError "boom")
          { cleanRetryEnv with mediate := .rejected (JSVal.nonError "dispatch exploded") })).output =
      .destroyed (some ⟨"dispatch exploded"⟩) := by
  constructor
  · exact claim_C8_retry_failure_normalized.1 ⟨2, 0, none, "http://example.org/"⟩
      initState (JSVal.jsError "boom")
      { cleanRetryEnv with logThrows := some (JSVal.nonError "logging exploded") }
      (JSVal.nonError "logging exploded") rfl rfl rfl rfl rfl rfl (by decide) rfl
  · exact claim_C8_retry_failure_normalized.2.1 ⟨2, 0, none, "http://example.org/"⟩
      initState (JSVal.jsError "boom")
      { cleanRetryEnv with mediate := .rejected (JSVal.nonError "dispatch exploded") }
      (JSVal.nonError "dispatch exploded") rfl rfl rfl rfl rfl rfl (by decide) rfl rfl rfl

/-! ## Claim C9: the pre-flight policy gate -/

/-- **C9** — For every action, the pre-flight gate evaluates exactly three
checks in order, rejecting with the corresponding reason at the first
failure: (a) retry count present and at least 1, (b) idempotent method or
unsafe retries allowed, (c) replayable payload or unsafe retries allowed;
when all pass, the gate passes.  A stream-typed payload is never replayable.
The gate is a pure function of the action (no side effects). -/
theorem claim_C9_policy_gate (action : HttpAction) :
    testGate action =
      (if !specCheckRetryCount action then TestOutcome.failed .nonPositiveRetryCount
       else if !specCheckMethod action then TestOutcome.failed .unsafeMethod
       else if !specCheckPayload action then TestOutcome.failed .nonReplayableBody
       else TestOutcome.passed) ∧
    isReplayableBody BodyValue.readableStream = false := by
  refine ⟨?_, rfl⟩
  unfold testGate specCheckRetryCount specCheckMethod specCheckPayload
  cases hrc : action.retryCount with
  | none => simp
  | some n =>
    by_cases hn : n < 1
    · have h1 : ¬ (1 ≤ n) := by omega
      simp [hn, h1]
    · have h1 : 1 ≤ n := by omega
      simp [hn, h1]

/-! ## Claim C10: method derivation and case-insensitive idempotence -/

/-- **C10** — When neither `init.method` is defined nor the input is a
`Request`, `getRequestMethod` returns `GET`; `isIdempotentMethod` uppercases
before comparing against the idempotent set, so lowercase spellings match;
consequently an action whose derived method is idempotent (in particular one
with no derivable method, or a lowercase spelling) never fails the
unsafe-method check, regardless of the allow-unsafe-retry setting. -/
theorem claim_C10_method_derivation :
    (∀ (action : HttpAction) (href : String), action.initMethod = none →
      action.input = .url href → getRequestMethod action = "GET") ∧
    (∀ m : String, isIdempotentMethod m = true ↔
      upperAscii m ∈ ["GET", "HEAD", "PUT", "DELETE", "OPTIONS", "TRACE"]) ∧
    (∀ m ∈ (["get", "head", "put", "delete", "options", "trace"] : List String),
      isIdempotentMethod m = true) ∧
    (∀ action : HttpAction, isIdempotentMethod (getRequestMethod action) = true →
      testGate action ≠ TestOutcome.failed .unsafeMethod) := by
  refine ⟨?_, ?_, ?_, ?_⟩
  · intro action href h1 h2
    simp [getRequestMethod, h1, h2]
  · intro m
    simp [isIdempotentMethod, or_assoc]
  · intro m hm
    fin_cases hm <;> decide
  · intro action h
    unfold testGate
    cases hrc : action.retryCount with
    | none => simp
    | some n =>
      by_cases hn : n < 1
      · simp [hn]
      · simp [hn, h]
        split <;> simp

/-- Witness for C10 at concrete inputs: an action with no derivable method
maps to `GET`, and a lowercase `get` action never fails the unsafe-method
check. -/
theorem claim_C10_method_derivation_witness :
    getRequestMethod ⟨some 1, none, none, none, .url "http://example.org/"⟩ = "GET" ∧
    testGate ⟨some 1, some false, some "get", none, .url "http://example.org/"⟩ ≠
      TestOutcome.failed .unsafeMethod := by
  constructor
  · exact claim_C10_method_derivation.1 _ "http://example.org/" rfl rfl
  · exact claim_C10_method_derivation.2.2.2 _ (by decide)

end RetryBody
